import Mathlib

/-!
Shallow embedding of `src/dashboard.py` (kreeztoph/damaged-trays), a
single-page Streamlit monitoring dashboard that loads four worksheets
from a Google spreadsheet, derives a percent-change column, renders
tables/metrics/charts, filters the in-memory tray table by a selected
time range and shows the top-5 trays by `Count`.

Modelling conventions:
  * timestamps are integers (seconds); `pd.Timedelta(hours=1)` is `3600`
    and `pd.Timedelta(days=1)` is `86400`;
  * numeric `Counter` values and percent changes are rationals;
  * pandas `sort_values` on a single column is modelled as a stable
    comparison sort (stable insertion sort `sortedBy`);
  * a DataFrame is a list of records; the pandas row index used to state
    insertion order is made explicit where a claim needs it (`IRow.idx`);
  * date/string formatting (`strftime`, `ordinal`) is abstracted to the
    underlying datetime value that gets rendered;
  * exceptions in the `try` body of `main` are `Except String`; the body
    is a sequence of panel-producing steps that aborts at the first
    raised error, mirroring straight-line Python under one `try`.
-/

namespace DamagedTrays

/-- One hour, as `pd.Timedelta(hours=1)` in seconds. -/
abbrev hourTd : Int := 3600

/-- One day, as `pd.Timedelta(days=1)` in seconds. -/
abbrev dayTd : Int := 86400

/-- A row of the `memory_data_1` worksheet: Tray ID, Count,
Most Recent Timestamp (dashboard.py line 97, spec data model). -/
structure MemRecord where
  trayId : String
  count : Int
  mrts : Int
  deriving DecidableEq, Repr

/-- A memory row after the chart section added the `Corrected Timestamp`
column (dashboard.py lines 186-188). -/
structure CorrRecord where
  trayId : String
  count : Int
  mrts : Int
  corrected : Int
  deriving DecidableEq, Repr

/-- Insertion into a list already arranged by `pick`:
`r` is placed before the first element `s` with `pick r s = true`.
Building block of the model of pandas `sort_values`. -/
def insertBy (pick : α → α → Bool) (r : α) : List α → List α
  | [] => [r]
  | s :: ss => if pick r s then r :: s :: ss else s :: insertBy pick r ss

/-- Comparison sort modelling `DataFrame.sort_values` on one column:
`pick a b = true` when `a` may come before `b`. The code uses the pandas
default `kind='quicksort'`, which only specifies the key order of the
result, not the relative order of rows with equal keys; this model fixes
one concrete tie order (that of an insertion sort) so as to stay
executable, and is relied on only for properties that hold for any
comparison sort of the column (key order, permutation, membership). -/
def sortedBy (pick : α → α → Bool) (l : List α) : List α :=
  l.foldr (insertBy pick) []

/-- `filtered_df.sort_values("Count", ascending=False).head(n)`
(dashboard.py line 258, with `n = 5`): sort descending by the numeric
key `cnt`, keep the first `n` rows. -/
def select_top (cnt : α → Int) (l : List α) (n : Nat) : List α :=
  (sortedBy (fun a b => decide (cnt b ≤ cnt a)) l).take n

/-- `counter_df['Counter'].pct_change()` tail: given the previous value
and the remaining rows, emit `(cur - prev) / prev * 100` for each row
(dashboard.py line 104; `* 100` applied immediately). -/
def pctGo : Rat → List Rat → List Rat
  | _, [] => []
  | prev, c :: cs => ((c - prev) / prev * 100) :: pctGo c cs

/-- `counter_df['Pct Change'] = counter_df['Counter'].pct_change().fillna(0) * 100`
(dashboard.py line 104): the first row has no predecessor, `pct_change`
yields NaN there and `fillna(0)` turns it into `0`. -/
def pctChangeTimes100 : List Rat → List Rat
  | [] => []
  | x :: xs => 0 :: pctGo x xs

/-- `format_custom_datetime` (dashboard.py lines 79-81): shifts the
datetime by +1 hour before rendering; the `ordinal`/`strftime` string
formatting is abstracted to the datetime value being rendered. -/
def format_custom_datetime (dt : Int) : Int :=
  dt + hourTd

/-- `memory_df['Tray ID'].nunique() if not memory_df.empty else 0`
(dashboard.py line 138). -/
def total_trays (df : List MemRecord) : Nat :=
  if df.isEmpty then 0 else ((df.map (fun r => r.trayId)).dedup).length

/-- `memory_df['Count'].sum() if not memory_df.empty else 0`
(dashboard.py line 140). -/
def total_appearances (df : List MemRecord) : Int :=
  if df.isEmpty then 0 else (df.map (fun r => r.count)).sum

/-- `memory_df['Most Recent Timestamp'].max() if not memory_df.empty else None`
(dashboard.py line 142). -/
def latest_time (df : List MemRecord) : Option Int :=
  if df.isEmpty then none else (df.map (fun r => r.mrts)).max?

/-- The value shown by the Last Scanned Tray Time metric: either a
rendered datetime or the literal N/A (dashboard.py lines 142-144). -/
inductive TimeDisplay where
  | na
  | time (t : Int)
  deriving DecidableEq, Repr

/-- `format_custom_datetime(latest_time) if latest_time else "N/A"`
(dashboard.py line 143). -/
def lastScannedDisplay (df : List MemRecord) : TimeDisplay :=
  match latest_time df with
  | none => TimeDisplay.na
  | some t => TimeDisplay.time (format_custom_datetime t)

/-- The chart-section reassignment of `memory_df` (dashboard.py lines
185-189): when non-empty, sort ascending by Most Recent Timestamp, add
`Corrected Timestamp = Most Recent Timestamp + 1 hour`, then keep only
rows with `Count > 1`. The reassigned frame is what every later section
of `main` reads. -/
def chartStage (df : List MemRecord) : List CorrRecord :=
  if df.isEmpty then []
  else
    (((sortedBy (fun a b => decide (a.mrts ≤ b.mrts)) df).map
        (fun r => CorrRecord.mk r.trayId r.count r.mrts (r.mrts + hourTd))).filter
      (fun r => decide (1 < r.count)))

/-- The options of the Select Time Range selectbox (dashboard.py line 223). -/
inductive Selection where
  | allData
  | last1Day
  | last2Days
  | last7Days
  | last1Month
  | customRange
  deriving DecidableEq, Repr

/-- Days covered by each fixed time-range option (dashboard.py lines 230-237). -/
def windowDays : Selection → Option Int
  | Selection.last1Day => some 1
  | Selection.last2Days => some 2
  | Selection.last7Days => some 7
  | Selection.last1Month => some 30
  | _ => none

/-- `str(e)` of the Python `UnboundLocalError` raised when `filtered_df`
is read without having been assigned (dashboard.py line 256). -/
def unboundLocalMsg : String :=
  "UnboundLocalError: local variable filtered_df referenced before assignment"

/-- The `if selected_time == ...` chain assigning `filtered_df`
(dashboard.py lines 230-252): each fixed window keeps rows with
`Most Recent Timestamp >= now - window`; Custom Range assigns only when
the form was submitted in this render pass (`none` models the local
variable staying unbound); All Data copies the frame. -/
def computeFilteredDf (sel : Selection) (submitted : Bool)
    (startD endD now : Int) (df : List CorrRecord) : Option (List CorrRecord) :=
  match sel with
  | Selection.last1Day => some (df.filter (fun r => decide (now - 1 * dayTd ≤ r.mrts)))
  | Selection.last2Days => some (df.filter (fun r => decide (now - 2 * dayTd ≤ r.mrts)))
  | Selection.last7Days => some (df.filter (fun r => decide (now - 7 * dayTd ≤ r.mrts)))
  | Selection.last1Month => some (df.filter (fun r => decide (now - 30 * dayTd ≤ r.mrts)))
  | Selection.customRange =>
      if submitted then
        some (df.filter (fun r => decide (startD ≤ r.mrts) && decide (r.mrts ≤ endD)))
      else none
  | Selection.allData => some df

/-- The counter chart rows (dashboard.py lines 161-176): the counter
frame, with its Pct Change column, sorted by Date and restricted to the
last 30 rows (`sort_values('Date').tail(30)`). Each row carries
((Date, Counter), Pct Change). -/
def counterChartRows (counters : List (Int × Rat)) : List ((Int × Rat) × Rat) :=
  let rows := counters.zip (pctChangeTimes100 (counters.map (fun c => c.2)))
  let s := sortedBy (fun a b => decide (a.1.1 ≤ b.1.1)) rows
  s.drop (s.length - 30)

/-- One rendered element of the page, in the order `main` emits them. -/
inductive Panel where
  | infoBanner
  | plcTable (rows : List Int)
  | memTable (rows : List (String × Int × Int))
  | dailyTable (rows : List (Int × Int))
  | insights (uniqueTrays : Nat) (appearances : Int) (lastScan : TimeDisplay)
  | counterMetric (pct : Rat) (latest : Rat)
  | counterChart (pts : List ((Int × Rat) × Rat))
  | trayChart (rows : List CorrRecord)
  | dailyChart (rows : List (Int × Int))
  | trayCountMetric (total : Nat)
  | topTrays (rows : List CorrRecord)
  | filteredTable (rows : List CorrRecord)
  | filteredChart (rows : List CorrRecord)
  | note (text : String)
  | errorBanner (text : String)
  deriving DecidableEq, Repr

/-- The inputs of one render pass of `main`: a possible fetch/auth
failure, the four loaded tables, the widget state of the time-range
selector, and the wall clock `pd.Timestamp.now()`. -/
structure Inputs where
  fetchErr : Option String
  plc : List Int
  memory : List MemRecord
  daily : List (Int × Int)
  counters : List (Int × Rat)
  sel : Selection
  submitted : Bool
  startD : Int
  endD : Int
  now : Int
  deriving Repr

/-- The `try` body of `main` (dashboard.py lines 93-285) as the ordered
sequence of panel-producing steps; a step is `Except.error` when the
corresponding Python line raises. Fetching (lines 95-99) may raise; the
metric/table/chart sections mirror lines 107-215; the filter section
(lines 219-285) reads the chart-stage frame and raises the
`UnboundLocalError` of line 256 when `filtered_df` was never assigned. -/
def tryBody (inp : Inputs) : List (Except String Panel) :=
  match inp.fetchErr with
  | some e => [Except.error e]
  | none =>
    let pcts := pctChangeTimes100 (inp.counters.map (fun c => c.2))
    let fdfOpt := computeFilteredDf inp.sel inp.submitted inp.startD inp.endD inp.now
      (chartStage inp.memory)
    [Except.ok (if inp.plc.isEmpty then Panel.note "No PLC data found."
      else Panel.plcTable (inp.plc.map (fun t => t + hourTd))),
     Except.ok (if inp.memory.isEmpty then Panel.note "Scanned Trays in Memory"
      else Panel.memTable (inp.memory.map (fun r => (r.trayId, r.count, r.mrts + hourTd)))),
     Except.ok (if inp.daily.isEmpty then Panel.note "No Daily data"
      else Panel.dailyTable inp.daily),
     Except.ok (Panel.insights (total_trays inp.memory) (total_appearances inp.memory)
      (lastScannedDisplay inp.memory)),
     Except.ok (if inp.counters.isEmpty then Panel.note "No PLC counter data yet."
      else Panel.counterMetric (pcts.getLastD 0) ((inp.counters.map (fun c => c.2)).getLastD 0)),
     Except.ok (if inp.counters.isEmpty then
        Panel.note "No PLC daily counter data available yet. It will appear once updated."
      else Panel.counterChart (counterChartRows inp.counters)),
     Except.ok (if inp.memory.isEmpty then Panel.note "No memory data available to plot."
      else Panel.trayChart (chartStage inp.memory)),
     Except.ok (if inp.daily.isEmpty then Panel.note "No daily count available to plot."
      else Panel.dailyChart (sortedBy (fun a b => decide (a.1 ≤ b.1)) inp.daily))]
    ++ (match fdfOpt with
        | some fdf =>
          [Except.ok (Panel.trayCountMetric ((fdf.map (fun r => r.trayId)).dedup.length)),
           Except.ok (Panel.topTrays (select_top (fun r => r.count) fdf 5))]
          ++ (if fdf.isEmpty then [] else [Except.ok (Panel.filteredTable fdf)])
          ++ [Except.ok (if fdf.isEmpty then
                Panel.note "No data available for the selected time range."
              else Panel.filteredChart fdf)]
        | none => [Except.error unboundLocalMsg])

/-- Run the steps of a `try` body in order, keeping the panels rendered
before the first raised error, which aborts the rest. -/
def runSteps : List (Except String Panel) → List Panel × Option String
  | [] => ([], none)
  | Except.ok p :: rest =>
    let r := runSteps rest
    (p :: r.1, r.2)
  | Except.error e :: _ => ([], some e)

/-- The line `ErrorHandler.log_error` appends to `error_log.txt`
(dashboard.py lines 34-36): timestamp, `str(error)`, then the stack
trace from `traceback.format_exc()`. -/
def logLine (ts msg tb : String) : String :=
  "\n[" ++ ts ++ "] " ++ msg ++ "\n" ++ tb ++ "\n"

/-- One render pass of `main` (dashboard.py lines 83-289): the header is
emitted outside the `try`; the body runs until it finishes or raises; a
raised error is logged via `ErrorHandler.log_error` and shown as the
inline `st.error` banner. Returns the page and the updated error log. -/
def renderMain (inp : Inputs) (log : List String) (ts tb : String) :
    List Panel × List String :=
  let body := runSteps (tryBody inp)
  match body.2 with
  | none => (Panel.infoBanner :: body.1, log)
  | some e =>
    (Panel.infoBanner :: body.1 ++ [Panel.errorBanner ("❌ An error occurred: " ++ e)],
     log ++ [logLine ts e tb])

/-- The remote store: spreadsheets by name, each a list of worksheet
titles (worksheet contents are irrelevant to the provisioning logic). -/
abbrev Store := List (String × List String)

/-- `get_or_create` inside `auth_gspread` (dashboard.py lines 50-54):
return the worksheet when present, otherwise add a new one. -/
def get_or_create (ws : List String) (title : String) : List String :=
  if title ∈ ws then ws else ws ++ [title]

/-- Write back the (possibly extended) worksheet list of the spreadsheet
gspread opened: the first entry with that name is replaced; when the
spreadsheet was absent, `client.create` added it to the store. -/
def setFirst : Store → String → List String → Store
  | [], name, ws => [(name, ws)]
  | p :: ps, name, ws =>
    if p.1 = name then (name, ws) :: ps else p :: setFirst ps name ws

/-- `auth_gspread` (dashboard.py lines 39-61): open the spreadsheet,
creating it when `client.open` raises `SpreadsheetNotFound`, then
get-or-create the four worksheets in order. Returns the updated store
and the final worksheet-title list. -/
def auth_gspread (store : Store) (name : String) : Store × List String :=
  let ws0 := match store.lookup name with | some w => w | none => []
  let ws1 := get_or_create ws0 "plc_data_1"
  let ws2 := get_or_create ws1 "memory_data_1"
  let ws3 := get_or_create ws2 "daily_data_1"
  let ws4 := get_or_create ws3 "triggered_daily_count"
  (setFirst store name ws4, ws4)

/-- All (displayed, stored) timestamp pairs of the panels the claim C10
enumerates: the PLC table (line 113), the memory table (line 123), the
Last Scanned Tray Time metric (lines 142-143), and the chart-section
Corrected Timestamp column (line 187). -/
def enumeratedDisplayedTimestamps (inp : Inputs) : List (Int × Int) :=
  inp.plc.map (fun t => (t + hourTd, t))
  ++ inp.memory.map (fun r => (r.mrts + hourTd, r.mrts))
  ++ (match latest_time inp.memory with
      | some t => [(format_custom_datetime t, t)]
      | none => [])
  ++ (chartStage inp.memory).map (fun r => (r.corrected, r.mrts))

/-- (displayed, stored) timestamp pairs of the filtered section that go
through the `Corrected Timestamp` column: the top-5 tray tiles (line
266) and the Corrected Timestamp column of the filtered table (line 273). -/
def filteredPanelShiftedTimestamps (inp : Inputs) : List (Int × Int) :=
  match computeFilteredDf inp.sel inp.submitted inp.startD inp.endD inp.now
      (chartStage inp.memory) with
  | some fdf =>
    (select_top (fun r => r.count) fdf 5).map (fun r => (r.corrected, r.mrts))
    ++ fdf.map (fun r => (r.corrected, r.mrts))
  | none => []

/-- (displayed, stored) timestamp pairs of the filtered section that
display the raw `Most Recent Timestamp` column: the filtered table
(line 273) and the x-axis of the filtered chart (lines 276-283). -/
def filteredPanelRawTimestamps (inp : Inputs) : List (Int × Int) :=
  match computeFilteredDf inp.sel inp.submitted inp.startD inp.endD inp.now
      (chartStage inp.memory) with
  | some fdf =>
    fdf.map (fun r => (r.mrts, r.mrts)) ++ fdf.map (fun r => (r.mrts, r.mrts))
  | none => []

/-- Every (displayed, stored) timestamp pair of one render pass. -/
def displayedTimestamps (inp : Inputs) : List (Int × Int) :=
  enumeratedDisplayedTimestamps inp
  ++ filteredPanelShiftedTimestamps inp
  ++ filteredPanelRawTimestamps inp

/-- A concrete render input: one memory record with Count 5 scanned at
instant 0, viewed with the All Data range. -/
def inpC10 : Inputs :=
  { fetchErr := none, plc := [], memory := [MemRecord.mk "T1" 5 0], daily := [],
    counters := [], sel := Selection.allData, submitted := false,
    startD := 0, endD := 0, now := 0 }

/-- A concrete render input selecting Custom Range with the filter form
not submitted in this render pass. -/
def inpC9 : Inputs :=
  { fetchErr := none, plc := [10], memory := [MemRecord.mk "T1" 5 0], daily := [],
    counters := [], sel := Selection.customRange, submitted := false,
    startD := 0, endD := 0, now := 0 }

/-- A concrete render input whose fetch step fails. -/
def inpC4 : Inputs :=
  { fetchErr := some "boom", plc := [], memory := [], daily := [],
    counters := [], sel := Selection.allData, submitted := false,
    startD := 0, endD := 0, now := 0 }

/-! ### Helper lemmas about the sort model -/

theorem mem_insertBy (pick : α → α → Bool) (r x : α) (l : List α) :
    x ∈ insertBy pick r l ↔ x = r ∨ x ∈ l := by
  induction l with
  | nil => simp [insertBy]
  | cons s ss ih =>
    cases hpick : pick r s with
    | true => simp [insertBy, hpick]
    | false =>
      simp only [insertBy, hpick, Bool.false_eq_true, if_false, List.mem_cons, ih]
      tauto

theorem perm_insertBy (pick : α → α → Bool) (r : α) (l : List α) :
    (insertBy pick r l).Perm (r :: l) := by
  induction l with
  | nil => exact List.Perm.refl _
  | cons s ss ih =>
    cases hpick : pick r s with
    | true => simp [insertBy, hpick]
    | false =>
      simp only [insertBy, hpick, Bool.false_eq_true, if_false]
      exact (ih.cons s).trans (List.Perm.swap r s ss)

theorem perm_sortedBy (pick : α → α → Bool) (l : List α) :
    (sortedBy pick l).Perm l := by
  induction l with
  | nil => exact List.Perm.refl _
  | cons r rs ih =>
    have hstep : sortedBy pick (r :: rs) = insertBy pick r (sortedBy pick rs) := rfl
    rw [hstep]
    exact (perm_insertBy pick r (sortedBy pick rs)).trans (ih.cons r)

theorem mem_sortedBy (pick : α → α → Bool) (x : α) (l : List α) :
    x ∈ sortedBy pick l ↔ x ∈ l :=
  (perm_sortedBy pick l).mem_iff

theorem insertBy_pairwise (pick : α → α → Bool) (R : α → α → Prop)
    (ht : ∀ a b c, R a b → R b c → R a c) (r : α) :
    ∀ l : List α, (∀ s ∈ l, pick r s = true → R r s) →
      (∀ s ∈ l, pick r s = false → R s r) →
      l.Pairwise R → (insertBy pick r l).Pairwise R := by
  intro l
  induction l with
  | nil =>
    intro _ _ _
    simp [insertBy]
  | cons s ss ih =>
    intro h1 h2 hp
    rcases List.pairwise_cons.1 hp with ⟨hs, hss⟩
    cases hpick : pick r s with
    | true =>
      simp only [insertBy, hpick, if_true]
      refine List.pairwise_cons.2 ⟨?_, hp⟩
      intro y hy
      rcases List.mem_cons.1 hy with rfl | hy'
      · exact h1 y (by simp) hpick
      · exact ht r s y (h1 s (by simp) hpick) (hs y hy')
    | false =>
      simp only [insertBy, hpick, Bool.false_eq_true, if_false]
      refine List.pairwise_cons.2 ⟨?_, ?_⟩
      · intro y hy
        rcases (mem_insertBy pick r y ss).1 hy with rfl | hy'
        · exact h2 s (by simp) hpick
        · exact hs y hy'
      · exact ih (fun t ht' hk => h1 t (by simp [ht']) hk)
          (fun t ht' hk => h2 t (by simp [ht']) hk) hss

theorem sortedBy_pairwise (pick : α → α → Bool) (R Q : α → α → Prop)
    (ht : ∀ a b c, R a b → R b c → R a c)
    (hQt : ∀ a b, Q a b → pick a b = true → R a b)
    (hQf : ∀ a b, Q a b → pick a b = false → R b a) :
    ∀ l : List α, l.Pairwise Q → (sortedBy pick l).Pairwise R := by
  intro l
  induction l with
  | nil =>
    intro _
    simp [sortedBy]
  | cons r rs ih =>
    intro hq
    rcases List.pairwise_cons.1 hq with ⟨hr, hrs⟩
    have hstep : sortedBy pick (r :: rs) = insertBy pick r (sortedBy pick rs) := rfl
    rw [hstep]
    refine insertBy_pairwise pick R ht r (sortedBy pick rs) ?_ ?_ (ih hrs)
    · intro s hs hk
      exact hQt r s (hr s ((mem_sortedBy pick s rs).1 hs)) hk
    · intro s hs hk
      exact hQf r s (hr s ((mem_sortedBy pick s rs).1 hs)) hk

theorem pairwise_trivially (l : List α) : l.Pairwise (fun _ _ => True) := by
  induction l with
  | nil => exact List.Pairwise.nil
  | cons a l ih => exact List.Pairwise.cons (fun _ _ => trivial) ih

theorem mem_select_top (cnt : α → Int) (l : List α) (n : Nat) (r : α)
    (h : r ∈ select_top cnt l n) : r ∈ l := by
  have h1 : r ∈ sortedBy (fun a b => decide (cnt b ≤ cnt a)) l :=
    (List.take_sublist n _).subset h
  exact (mem_sortedBy _ r l).1 h1

/-! ### Helper lemmas about the dashboard pipeline -/

theorem mem_chartStage (df : List MemRecord) (r : CorrRecord) (h : r ∈ chartStage df) :
    1 < r.count ∧ r.corrected = r.mrts + hourTd := by
  unfold chartStage at h
  by_cases he : df.isEmpty = true
  · simp [he] at h
  · rw [if_neg he] at h
    rcases List.mem_filter.1 h with ⟨hm, hcnt⟩
    obtain ⟨s, _, rfl⟩ := List.mem_map.1 hm
    exact ⟨of_decide_eq_true hcnt, rfl⟩

theorem computeFilteredDf_subset (sel : Selection) (submitted : Bool)
    (startD endD now : Int) (df fdf : List CorrRecord)
    (h : computeFilteredDf sel submitted startD endD now df = some fdf) :
    ∀ r ∈ fdf, r ∈ df := by
  intro r hr
  cases sel <;> simp only [computeFilteredDf] at h
  case allData =>
    rw [Option.some.injEq] at h
    subst h
    exact hr
  case last1Day =>
    rw [Option.some.injEq] at h
    subst h
    exact (List.mem_filter.1 hr).1
  case last2Days =>
    rw [Option.some.injEq] at h
    subst h
    exact (List.mem_filter.1 hr).1
  case last7Days =>
    rw [Option.some.injEq] at h
    subst h
    exact (List.mem_filter.1 hr).1
  case last1Month =>
    rw [Option.some.injEq] at h
    subst h
    exact (List.mem_filter.1 hr).1
  case customRange =>
    by_cases hs : submitted = true
    · rw [if_pos hs, Option.some.injEq] at h
      subst h
      exact (List.mem_filter.1 hr).1
    · rw [if_neg hs] at h
      exact Option.noConfusion h

theorem runSteps_ok_prefix (ps : List Panel) (e : String)
    (rest : List (Except String Panel)) :
    runSteps (ps.map Except.ok ++ Except.error e :: rest) = (ps, some e) := by
  induction ps with
  | nil => rfl
  | cons p ps ih => simp [runSteps, ih]

theorem pctGo_getD : ∀ (xs : List Rat) (prev : Rat) (i : Nat), i < xs.length →
    (pctGo prev xs).getD i 0
      = (xs.getD i 0 - (prev :: xs).getD i 0) / (prev :: xs).getD i 0 * 100 := by
  intro xs
  induction xs with
  | nil =>
    intro prev i h
    simp at h
  | cons c cs ih =>
    intro prev i h
    cases i with
    | zero => simp [pctGo]
    | succ i =>
      have h' : i < cs.length := by simpa using h
      simp only [pctGo, List.getD_cons_succ]
      exact ih c i h'

theorem setFirst_of_lookup : ∀ (store : Store) (name : String) (ws : List String),
    store.lookup name = some ws → setFirst store name ws = store := by
  intro store
  induction store with
  | nil =>
    intro name ws h
    exact Option.noConfusion h
  | cons p ps ih =>
    intro name ws h
    obtain ⟨k, v⟩ := p
    simp only [List.lookup] at h
    cases hbe : name == k with
    | true =>
      simp only [hbe] at h
      rw [Option.some.injEq] at h
      subst h
      have hname : name = k := by simpa using hbe
      subst hname
      simp [setFirst]
    | false =>
      simp only [hbe] at h
      simp only [setFirst]
      have hne : ¬k = name := by
        intro hc
        subst hc
        simp at hbe
      rw [if_neg hne, ih name ws h]

/-! ### Claim theorems -/

/-- C1 counterexample: the claim that every refresh leaves the remote
store unchanged is false. On a store that does not yet contain the
spreadsheet, `auth_gspread` (dashboard.py lines 45-61) creates the
spreadsheet and its four worksheets, so the store after loading differs
from the empty store it started from. -/
theorem auth_gspread_mutates_missing_store :
    (auth_gspread [] "Data Monitor ENIS").1 ≠ [] := by
  decide

/-- C1 amended: when the spreadsheet named `sheet_name` is present in
the store and already carries the four worksheets
`plc_data_1`, `memory_data_1`, `daily_data_1`, `triggered_daily_count`,
a refresh cycle performs reads only: `auth_gspread` leaves the store
unchanged. When the spreadsheet or a worksheet is missing it is created
instead (see the counterexample). -/
theorem auth_gspread_reads_only_when_provisioned (store : Store) (ws : List String)
    (h : store.lookup "Data Monitor ENIS" = some ws)
    (h1 : "plc_data_1" ∈ ws) (h2 : "memory_data_1" ∈ ws)
    (h3 : "daily_data_1" ∈ ws) (h4 : "triggered_daily_count" ∈ ws) :
    (auth_gspread store "Data Monitor ENIS").1 = store := by
  simp only [auth_gspread, h, get_or_create, if_pos h1, if_pos h2, if_pos h3, if_pos h4]
  exact setFirst_of_lookup store "Data Monitor ENIS" ws h

/-- Witness for the amended C1 theorem at a fully provisioned store. -/
theorem auth_gspread_reads_only_when_provisioned_witness :
    (auth_gspread
        [("Data Monitor ENIS",
          ["plc_data_1", "memory_data_1", "daily_data_1", "triggered_daily_count"])]
        "Data Monitor ENIS").1
      = [("Data Monitor ENIS",
          ["plc_data_1", "memory_data_1", "daily_data_1", "triggered_daily_count"])] :=
  auth_gspread_reads_only_when_provisioned
    [("Data Monitor ENIS",
      ["plc_data_1", "memory_data_1", "daily_data_1", "triggered_daily_count"])]
    ["plc_data_1", "memory_data_1", "daily_data_1", "triggered_daily_count"]
    (by decide) (by decide) (by decide) (by decide) (by decide)

/-- C3: the derived Pct Change column (dashboard.py lines 102-104) is 0
on the first row of the counter series and
`(cur - prev) / prev * 100` on every later row (stated where the
previous Counter is nonzero, so that real-valued division is defined). -/
theorem pct_change_first_zero_then_formula (l : List Rat) :
    (l ≠ [] → (pctChangeTimes100 l).getD 0 0 = 0)
    ∧ ∀ i : Nat, i + 1 < l.length → l.getD i 0 ≠ 0 →
        (pctChangeTimes100 l).getD (i + 1) 0
          = (l.getD (i + 1) 0 - l.getD i 0) / l.getD i 0 * 100 := by
  constructor
  · intro h
    cases l with
    | nil => exact absurd rfl h
    | cons x xs => rfl
  · intro i hi _
    cases l with
    | nil => simp at hi
    | cons x xs =>
      have h' : i < xs.length := by simpa using hi
      simp only [pctChangeTimes100, List.getD_cons_succ]
      exact pctGo_getD xs x i h'

/-- Witness for C3 on the series [4, 5]: first row 0, second row 25. -/
theorem pct_change_first_zero_then_formula_witness :
    (pctChangeTimes100 [4, 5]).getD 0 0 = 0
    ∧ (pctChangeTimes100 [4, 5]).getD (0 + 1) 0
        = (([4, 5] : List Rat).getD (0 + 1) 0 - ([4, 5] : List Rat).getD 0 0)
            / ([4, 5] : List Rat).getD 0 0 * 100 :=
  ⟨(pct_change_first_zero_then_formula [4, 5]).1 (by decide),
   (pct_change_first_zero_then_formula [4, 5]).2 0 (by decide) (by decide)⟩

/-- C5: for each fixed window (1, 2, 7, 30 days; dashboard.py lines
230-237) a record is retained by the time-range filter iff its
Most Recent Timestamp is at least `now - window`, so the boundary
instant itself is included. -/
theorem time_filter_boundary_inclusive (sel : Selection) (d : Int)
    (h : windowDays sel = some d) (submitted : Bool)
    (startD endD now : Int) (df : List CorrRecord) (r : CorrRecord) :
    r ∈ (computeFilteredDf sel submitted startD endD now df).getD []
      ↔ r ∈ df ∧ now - d * dayTd ≤ r.mrts := by
  cases sel <;> simp only [windowDays, Option.some.injEq] at h
  case allData => exact absurd h (fun hc => Option.noConfusion hc)
  case customRange => exact absurd h (fun hc => Option.noConfusion hc)
  case last1Day =>
    subst h
    simp [computeFilteredDf, List.mem_filter]
  case last2Days =>
    subst h
    simp [computeFilteredDf, List.mem_filter]
  case last7Days =>
    subst h
    simp [computeFilteredDf, List.mem_filter]
  case last1Month =>
    subst h
    simp [computeFilteredDf, List.mem_filter]

/-- Witness for C5 at the boundary: a record whose timestamp is exactly
`now - 1 day` is retained by the Last 1 Day filter. -/
theorem time_filter_boundary_inclusive_witness :
    CorrRecord.mk "T1" 5 0 3600
        ∈ (computeFilteredDf Selection.last1Day false 0 0 86400
            [CorrRecord.mk "T1" 5 0 3600]).getD []
      ↔ CorrRecord.mk "T1" 5 0 3600 ∈ [CorrRecord.mk "T1" 5 0 3600]
          ∧ (86400 : Int) - 1 * dayTd ≤ (CorrRecord.mk "T1" 5 0 3600).mrts :=
  time_filter_boundary_inclusive Selection.last1Day 1 rfl false 0 0 86400
    [CorrRecord.mk "T1" 5 0 3600] (CorrRecord.mk "T1" 5 0 3600)

/-- C6: on an empty memory table the aggregations yield their defaults
rather than failing (dashboard.py lines 138-144): unique-tray count 0,
Count sum 0, and the latest-timestamp metric shows N/A. -/
theorem empty_memory_aggregation_defaults :
    total_trays [] = 0 ∧ total_appearances [] = 0
    ∧ lastScannedDisplay [] = TimeDisplay.na :=
  ⟨rfl, rfl, rfl⟩

/-- C7: when the input has fewer than `n` rows, the top-N selection
returns all the rows (as a permutation: the sort reorders them), still
sorted descending by the key; on empty input it returns the empty list
(dashboard.py line 258). -/
theorem select_top_small_input (cnt : α → Int) (l : List α) (n : Nat)
    (h : l.length < n) :
    (select_top cnt l n).Perm l
    ∧ (select_top cnt l n).Pairwise (fun a b => cnt b ≤ cnt a)
    ∧ select_top cnt ([] : List α) n = [] := by
  have hperm := perm_sortedBy (fun a b => decide (cnt b ≤ cnt a)) l
  have hlen : (sortedBy (fun a b => decide (cnt b ≤ cnt a)) l).length ≤ n := by
    rw [hperm.length_eq]
    omega
  have htake : select_top cnt l n = sortedBy (fun a b => decide (cnt b ≤ cnt a)) l := by
    unfold select_top
    exact List.take_of_length_le hlen
  refine ⟨?_, ?_, by simp [select_top, sortedBy]⟩
  · rw [htake]
    exact hperm
  · rw [htake]
    refine sortedBy_pairwise _ _ (fun _ _ => True) ?_ ?_ ?_ l (pairwise_trivially l)
    · intro a b c h1 h2
      exact le_trans h2 h1
    · intro a b _ hk
      exact of_decide_eq_true hk
    · intro a b _ hk
      have := of_decide_eq_false hk
      omega

/-- Witness for C7 on a two-row table with n = 5. -/
theorem select_top_small_input_witness :
    (select_top (fun x : Int => x) [3, 1] 5).Perm [3, 1]
    ∧ (select_top (fun x : Int => x) [3, 1] 5).Pairwise (fun a b : Int => b ≤ a)
    ∧ select_top (fun x : Int => x) ([] : List Int) 5 = [] :=
  select_top_small_input (fun x : Int => x) [3, 1] 5 (by decide)

/-- C4: whatever step of the fetch/transform/render body raises first,
the top-level handler of `main` (dashboard.py lines 287-289) catches it:
the page keeps every panel rendered before the failure point followed by
the generic inline error banner, and exactly one entry carrying the
timestamp, the error text and the stack trace is appended to the error
log (`ErrorHandler.log_error`, lines 32-36). -/
theorem main_catches_any_body_error (inp : Inputs) (log : List String)
    (ts tb e : String) (ps : List Panel) (rest : List (Except String Panel))
    (h : tryBody inp = ps.map Except.ok ++ Except.error e :: rest) :
    renderMain inp log ts tb
      = (Panel.infoBanner :: ps ++ [Panel.errorBanner ("❌ An error occurred: " ++ e)],
         log ++ [logLine ts e tb]) := by
  simp only [renderMain, h, runSteps_ok_prefix]

/-- Witness for C4: a render pass whose fetch step fails with "boom". -/
theorem main_catches_any_body_error_witness :
    renderMain inpC4 [] "2025-01-01 00:00:00" "trace"
      = (Panel.infoBanner :: []
           ++ [Panel.errorBanner ("❌ An error occurred: " ++ "boom")],
         [] ++ [logLine "2025-01-01 00:00:00" "boom" "trace"]) :=
  main_catches_any_body_error inpC4 [] "2025-01-01 00:00:00" "trace" "boom" [] [] rfl

/-- C8: because `main` reassigns `memory_df` in the chart section
(dashboard.py lines 185-189), whenever the memory table is non-empty the
time-range filter, the filtered total-tray-count metric and the top-5
ranking all read the chart-stage frame, so every record they operate on
has Count strictly greater than 1. -/
theorem downstream_sections_see_count_gt_one (memdf : List MemRecord)
    (_hne : memdf ≠ []) (sel : Selection) (submitted : Bool)
    (startD endD now : Int) (fdf : List CorrRecord)
    (hf : computeFilteredDf sel submitted startD endD now (chartStage memdf) = some fdf) :
    (∀ r ∈ fdf, 1 < r.count)
    ∧ ∀ r ∈ select_top (fun r => r.count) fdf 5, 1 < r.count := by
  have hsub := computeFilteredDf_subset sel submitted startD endD now _ fdf hf
  constructor
  · intro r hr
    exact (mem_chartStage memdf r (hsub r hr)).1
  · intro r hr
    exact (mem_chartStage memdf r (hsub r (mem_select_top _ fdf 5 r hr))).1

/-- Witness for C8 on a one-record memory table viewed with All Data. -/
theorem downstream_sections_see_count_gt_one_witness :
    (∀ r ∈ [CorrRecord.mk "T1" 5 0 3600], 1 < r.count)
    ∧ ∀ r ∈ select_top (fun r => r.count) [CorrRecord.mk "T1" 5 0 3600] 5,
        1 < r.count :=
  downstream_sections_see_count_gt_one [MemRecord.mk "T1" 5 0] (by decide)
    Selection.allData false 0 0 0 [CorrRecord.mk "T1" 5 0 3600] (by decide)

/-- C10 counterexample: the claim that every timestamp shown on the page
is shifted by +1 hour is false. On a one-record table viewed with All
Data, the filtered table and the filtered chart (dashboard.py lines
270-283) display the stored `Most Recent Timestamp` (0) unshifted. -/
theorem not_every_displayed_timestamp_shifted :
    ¬ ∀ p ∈ displayedTimestamps inpC10, p.1 = p.2 + hourTd := by
  decide

/-- C10 amended: the displays the claim enumerates - the PLC table, the
memory table, the last-scanned-tray metric and the chart-section
Corrected Timestamp - are shifted by exactly +1 hour, and so are the
top-5 tiles and the Corrected Timestamp column of the filtered table;
but the `Most Recent Timestamp` values shown by the filtered table and
the filtered chart are displayed unshifted, equal to the stored value. -/
theorem displayed_timestamp_shifts (inp : Inputs) :
    (∀ p ∈ enumeratedDisplayedTimestamps inp, p.1 = p.2 + hourTd)
    ∧ (∀ p ∈ filteredPanelShiftedTimestamps inp, p.1 = p.2 + hourTd)
    ∧ ∀ p ∈ filteredPanelRawTimestamps inp, p.1 = p.2 := by
  refine ⟨?_, ?_, ?_⟩
  · intro p hp
    simp only [enumeratedDisplayedTimestamps, List.append_assoc,
      List.mem_append] at hp
    rcases hp with h | h | h | h
    · obtain ⟨t, _, rfl⟩ := List.mem_map.1 h
      rfl
    · obtain ⟨r, _, rfl⟩ := List.mem_map.1 h
      rfl
    · rcases hl : latest_time inp.memory with _ | t
      · rw [hl] at h
        simp at h
      · rw [hl] at h
        simp only [List.mem_singleton] at h
        subst h
        rfl
    · obtain ⟨r, hr, rfl⟩ := List.mem_map.1 h
      exact (mem_chartStage inp.memory r hr).2
  · intro p hp
    unfold filteredPanelShiftedTimestamps at hp
    rcases hf : computeFilteredDf inp.sel inp.submitted inp.startD inp.endD inp.now
        (chartStage inp.memory) with _ | fdf
    · rw [hf] at hp
      simp at hp
    · rw [hf] at hp
      have hsub := computeFilteredDf_subset inp.sel inp.submitted inp.startD inp.endD
        inp.now _ fdf hf
      simp only [List.mem_append] at hp
      rcases hp with h | h
      · obtain ⟨r, hr, rfl⟩ := List.mem_map.1 h
        exact (mem_chartStage inp.memory r (hsub r (mem_select_top _ fdf 5 r hr))).2
      · obtain ⟨r, hr, rfl⟩ := List.mem_map.1 h
        exact (mem_chartStage inp.memory r (hsub r hr)).2
  · intro p hp
    unfold filteredPanelRawTimestamps at hp
    rcases hf : computeFilteredDf inp.sel inp.submitted inp.startD inp.endD inp.now
        (chartStage inp.memory) with _ | fdf
    · rw [hf] at hp
      simp at hp
    · rw [hf] at hp
      simp only [List.mem_append] at hp
      rcases hp with h | h <;>
        · obtain ⟨r, _, rfl⟩ := List.mem_map.1 h
          rfl

end DamagedTrays
